import Mathlib

/-!
Verification development for the Merk-Echt review scraper (src/scraper.py).

The script is a linear pipeline: a Selenium-driven DOM extractor
(`scrape_reviews_selenium`), a plain-HTTP fallback (`scrape_reviews_requests`),
a spreadsheet writer (`save_to_excel`) and a `__main__` block that chains them.
We embed the pure decision logic of each part: DOM containers become
association lists from selectors to element text, network effects become an
explicit fetch-outcome datatype, and the driver lifecycle becomes a trace of
acquire/release events indexed by where (if anywhere) an exception is raised.
-/

namespace Scraper

/-- One emitted review row, with the three dict keys used by the script:
`Reviewer Name`, `Score`, `Comments`. -/
structure Row where
  reviewerName : String
  score : String
  comments : String
deriving DecidableEq, Repr

/-- A CSS-ish selector as used by `soup.find(tag, {'class': cls})`. -/
structure Selector where
  tag : String
  cls : String
deriving DecidableEq, Repr

/-- A review container element: the association, in document order, of each
selector to the text of the first element inside the container matching it.
A selector absent from the list matches no element. -/
abbrev Container := List (Selector × String)

/-- Embeds Python `str.strip()` with no argument: remove leading and trailing
whitespace characters. Defined structurally over the character list so that
concrete inputs evaluate by kernel reduction. -/
def strip (s : String) : String :=
  ⟨((s.data.dropWhile Char.isWhitespace).reverse.dropWhile Char.isWhitespace).reverse⟩

/-- Embeds `review.find(tag, {'class': cls})` followed by `.text`: the raw
text of the first element of the container matching the selector, if any. -/
def findSel : Container → Selector → Option String
  | [], _ => none
  | (s, t) :: rest, q => if s = q then some t else findSel rest q

/-- The ordered name sub-selectors of `scrape_reviews_selenium`. -/
def name_selectors : List Selector :=
  [⟨"span", "reviewer-name"⟩, ⟨"span", "author-name"⟩,
   ⟨"div", "reviewer"⟩, ⟨"p", "reviewer-name"⟩]

/-- The ordered score sub-selectors of `scrape_reviews_selenium`. -/
def score_selectors : List Selector :=
  [⟨"span", "rating"⟩, ⟨"span", "score"⟩,
   ⟨"div", "rating"⟩, ⟨"span", "stars"⟩]

/-- The ordered comment sub-selectors of `scrape_reviews_selenium`. -/
def comment_selectors : List Selector :=
  [⟨"p", "review-text"⟩, ⟨"div", "review-content"⟩,
   ⟨"p", "comment"⟩, ⟨"div", "review-comment"⟩]

/-- Embeds the per-field cascade of `scrape_reviews_selenium`:

    for tag, attrs in selectors:
        element = review.find(tag, attrs)
        if element:
            value = element.text.strip()
            break

The loop breaks at the first selector that matches an element, taking that
element's stripped text — even when the stripped text is empty. -/
def resolveField (c : Container) : List Selector → Option String
  | [] => none
  | s :: rest =>
    match findSel c s with
    | some t => some (strip t)
    | none => resolveField c rest

/-- The field cascade as the spec describes it (for comparison with
`resolveField`): take the first sub-selector whose element's trimmed text is
non-empty; a matching element with empty trimmed text does not stop the
cascade. -/
def resolveFieldSpec (c : Container) : List Selector → Option String
  | [] => none
  | s :: rest =>
    match findSel c s with
    | some t =>
      if (strip t).isEmpty then resolveFieldSpec c rest else some (strip t)
    | none => resolveFieldSpec c rest

/-- Embeds Python truthiness defaulting `v if v else default`: both `None`
and the empty string are falsy and replaced by the default. -/
def pyDefault (v : Option String) (default : String) : String :=
  match v with
  | none => default
  | some s => if s.isEmpty then default else s

/-- Embeds the per-container body of the loop in `scrape_reviews_selenium`
(lines 52-110): resolve the three fields by their cascades, then append

    reviews.append({
        'Reviewer Name': name if name else 'Anonymous',
        'Score': score if score else 'N/A',
        'Comments': comments if comments else 'No comment'
    })

The append is unconditional: every container contributes a row. -/
def extractReview (c : Container) : Row :=
  { reviewerName := pyDefault (resolveField c name_selectors) "Anonymous"
  , score := pyDefault (resolveField c score_selectors) "N/A"
  , comments := pyDefault (resolveField c comment_selectors) "No comment" }

/-- Embeds the extraction loop of `scrape_reviews_selenium` over the matched
review containers of the rendered page. -/
def scrape_reviews_selenium_extract (containers : List Container) : List Row :=
  containers.map extractReview

/-- Embeds the per-container body of `scrape_reviews_requests` (lines 145-155):
single selectors per field, and

    reviews.append({
        'Reviewer Name': name.text.strip() if name else 'Anonymous',
        'Score': score.text.strip() if score else 'N/A',
        'Comments': comments.text.strip() if comments else ''
    })

Here the truthiness test is on the element, not on its stripped text, so a
present element whose text strips to empty is used as-is; and the default for
a missing comment element is the empty string. -/
def extractReviewRequests (c : Container) : Row :=
  { reviewerName :=
      match findSel c ⟨"span", "reviewer-name"⟩ with
      | some t => strip t
      | none => "Anonymous"
  , score :=
      match findSel c ⟨"span", "rating"⟩ with
      | some t => strip t
      | none => "N/A"
  , comments :=
      match findSel c ⟨"p", "review-text"⟩ with
      | some t => strip t
      | none => "" }

/-- Outcome of `requests.get(url, headers=headers, timeout=10)`: a connection
error, a timeout, or a completed response carrying a status code and the
parsed review containers of its body. -/
inductive FetchOutcome where
  | connError
  | timeout
  | response (status : Nat) (doc : List Container)
deriving DecidableEq, Repr

/-- Embeds `requests.get` plus `response.raise_for_status()`: connection
errors and timeouts are raised by `get`, and `raise_for_status` raises
`HTTPError` exactly for status codes 400-599 (the requests library raises for
4xx and 5xx only). On success, yields the parsed containers. -/
def fetchPage (f : FetchOutcome) : Except String (List Container) :=
  match f with
  | .connError => .error "ConnectionError"
  | .timeout => .error "Timeout"
  | .response st doc =>
    if 400 ≤ st ∧ st < 600 then .error "HTTPError" else .ok doc

/-- Embeds `scrape_reviews_requests` (lines 125-164): fetch, and on any
`requests.RequestException` return the empty list; otherwise extract one row
per container. The function is total: no exception reaches the caller. -/
def scrape_reviews_requests (f : FetchOutcome) : List Row :=
  match fetchPage f with
  | .error _ => []
  | .ok doc => doc.map extractReviewRequests

/-- The configuration of the one GET request issued by
`scrape_reviews_requests` (line 135). -/
structure GetRequest where
  url : String
  userAgent : String
  timeout : Nat
deriving DecidableEq, Repr

/-- Embeds `requests.get(url, headers=headers, timeout=10)` with the header
dict of lines 130-132. -/
def the_request (url : String) : GetRequest :=
  { url := url
  , userAgent := "Mozilla/5.0 (Windows NT 10.0; Win64; x64) AppleWebKit/537.36 (KHTML, like Gecko) Chrome/91.0.4472.124 Safari/537.36"
  , timeout := 10 }

/-- A single-sheet spreadsheet as produced by
`df.to_excel(filename, index=False, sheet_name='Reviews')`. -/
structure Sheet where
  sheetName : String
  header : List String
  dataRows : List (List String)
deriving DecidableEq, Repr

/-- Embeds `save_to_excel` (lines 166-178): an empty review list is rejected
(`return False`, no file written); otherwise a DataFrame is built from the
dict rows — columns in the key order of the dicts — and written with a header
row, no index column, to sheet `Reviews`. Returns the written sheet, or
`none` when nothing was written. -/
def save_to_excel (reviews : List Row) : Option Sheet :=
  if reviews.isEmpty then none
  else some
    { sheetName := "Reviews"
    , header := ["Reviewer Name", "Score", "Comments"]
    , dataRows := reviews.map (fun r => [r.reviewerName, r.score, r.comments]) }

/-- Observable outcome of the `__main__` block: the final review list, whether
a file was saved, and the process exit code. -/
structure MainResult where
  final : List Row
  saved : Bool
  exitCode : Nat
deriving DecidableEq, Repr

/-- Embeds the `__main__` block (lines 180-197), parametrised by what each
scraper returns:

    reviews = scrape_reviews_selenium(url)
    if len(reviews) < 5:
        reviews = scrape_reviews_requests(url)
    if reviews:
        save_to_excel(reviews)
    else:
        print(...)

The script contains no `sys.exit` call on any path, so the interpreter exits
with code 0 whether or not anything was scraped. -/
def mainRun (seleniumResult requestsResult : List Row) : MainResult :=
  let reviews :=
    if seleniumResult.length < 5 then requestsResult else seleniumResult
  if reviews.isEmpty then
    { final := reviews, saved := false, exitCode := 0 }
  else
    { final := reviews, saved := (save_to_excel reviews).isSome, exitCode := 0 }

/-- Resource events of the Selenium driver lifecycle. -/
inductive Event where
  | acquire
  | release
deriving DecidableEq, Repr

/-- Where, if anywhere, an exception is raised inside the `try` block of
`scrape_reviews_selenium` (the per-review inner `try` swallows its own
exceptions and is not an exit path). -/
inductive FailPoint where
  | atInit
  | afterInit
  | noFail
deriving DecidableEq, Repr

/-- Embeds the control flow of `scrape_reviews_selenium` (lines 23-123) as
the trace of driver events on each exit path, paired with whether the call
raises to its caller:

  * `atInit`: `webdriver.Chrome(...)` itself raises, so no driver is bound;
    the `except` handler's `driver.quit()` then raises `NameError`, which
    propagates to the caller.
  * `afterInit`: a later statement of the `try` block raises; the handler
    runs `driver.quit()` and returns `[]`.
  * `noFail`: the normal path runs `driver.quit()` and returns the reviews. -/
def seleniumTrace : FailPoint → List Event × Bool
  | .atInit => ([], true)
  | .afterInit => ([.acquire, .release], false)
  | .noFail => ([.acquire, .release], false)

/-- Modelled from the spec: the pagination driver (spec §4.3) is not part of
src/scraper.py, which fetches a single page. A page fetch either fails
(`none`) or yields the page's extracted reviews together with whether a
next-page signal is present. -/
structure Page where
  revs : List Row
  hasNext : Bool
deriving DecidableEq, Repr

/-- Modelled from the spec: a page at which pagination continues — fetch
succeeded, a next-page signal is present, and at least 10 reviews were
found. -/
def goodPage : Option Page → Bool
  | none => false
  | some pg => pg.hasNext && decide (10 ≤ pg.revs.length)

/-- Modelled from the spec: the per-page transition policy of §4.3, fuelled
by the remaining page budget. Fetch; on failure stop with the accumulated
result. If the page yields zero reviews, stop. Append the page's reviews;
stop if no next-page signal is present or fewer than 10 reviews were found,
else move to the next page. -/
def paginateGo (site : Nat → Option Page) : Nat → Nat → List Row → List Row
  | 0, _, acc => acc
  | fuel + 1, page, acc =>
    match site page with
    | none => acc
    | some pg =>
      if pg.revs.isEmpty then acc
      else if !pg.hasNext || pg.revs.length < 10 then acc ++ pg.revs
      else paginateGo site fuel (page + 1) (acc ++ pg.revs)

/-- Modelled from the spec: the pagination driver, a state machine over the
page number starting at 1, incrementing by 1, bounded by a configurable
maximum page count. -/
def paginate (site : Nat → Option Page) (maxPages : Nat) : List Row :=
  paginateGo site maxPages 1 []

/-- The concatenation of the reviews of `count` consecutive pages starting at
`page` (a failed fetch contributes nothing). -/
def seg (site : Nat → Option Page) (page : Nat) : Nat → List Row
  | 0 => []
  | count + 1 =>
    (match site page with | none => [] | some pg => pg.revs)
      ++ seg site (page + 1) count

/-! ## C1: emission of fully-empty containers -/

/-- A matched container in which no sub-selector matches any element, so all
three fields are unresolved. -/
def c1ex : Container := []

/-- C1 (counterexample): a container whose three fields all resolve to
nothing is not discarded — the extraction loop still emits one Review for
it, contradicting the claimed "iff at least one field is non-empty". -/
theorem C1_counterexample :
    resolveField c1ex name_selectors = none ∧
    resolveField c1ex score_selectors = none ∧
    resolveField c1ex comment_selectors = none ∧
    scrape_reviews_selenium_extract [c1ex] =
      [{ reviewerName := "Anonymous", score := "N/A", comments := "No comment" }] ∧
    scrape_reviews_selenium_extract [c1ex] ≠ [] := by
  refine ⟨rfl, rfl, rfl, rfl, ?_⟩
  decide

/-- C1 (amended): the DOM extractor emits exactly one Review per matched
container, unconditionally; a container in which all three fields are empty
is not discarded but emitted with all three default values. -/
theorem C1_theorem (containers : List Container) :
    (scrape_reviews_selenium_extract containers).length = containers.length := by
  simp [scrape_reviews_selenium_extract]

/-! ## C2: default substitution at emission -/

/-- A container with a reviewer-name element but no rating and no
review-text element. -/
def c2ex : Container := [(⟨"span", "reviewer-name"⟩, "Jan")]

/-- C2 (counterexample): in the requests variant an unresolved comment is
emitted as the empty string, not as "No comment", so the claimed defaults do
not hold in every extraction variant. -/
theorem C2_counterexample :
    findSel c2ex ⟨"p", "review-text"⟩ = none ∧
    (extractReviewRequests c2ex).comments = "" ∧
    (extractReviewRequests c2ex).comments ≠ "No comment" := by
  refine ⟨rfl, rfl, ?_⟩
  decide

/-- C2 (amended): in the Selenium variant an empty or unresolved reviewer,
score and comment become "Anonymous", "N/A" and "No comment" at the emission
point. In the requests variant only an absent element is defaulted — to
"Anonymous" for the reviewer and "N/A" for the score, but to the empty
string for the comment — and a present element's stripped text is emitted
as-is, even when it is empty. -/
theorem C2_theorem (c : Container) :
    ((resolveField c name_selectors = none ∨ resolveField c name_selectors = some "") →
        (extractReview c).reviewerName = "Anonymous") ∧
    ((resolveField c score_selectors = none ∨ resolveField c score_selectors = some "") →
        (extractReview c).score = "N/A") ∧
    ((resolveField c comment_selectors = none ∨ resolveField c comment_selectors = some "") →
        (extractReview c).comments = "No comment") ∧
    (findSel c ⟨"span", "reviewer-name"⟩ = none →
        (extractReviewRequests c).reviewerName = "Anonymous") ∧
    (findSel c ⟨"span", "rating"⟩ = none →
        (extractReviewRequests c).score = "N/A") ∧
    (findSel c ⟨"p", "review-text"⟩ = none →
        (extractReviewRequests c).comments = "") ∧
    (∀ t, findSel c ⟨"p", "review-text"⟩ = some t →
        (extractReviewRequests c).comments = strip t) := by
  refine ⟨?_, ?_, ?_, ?_, ?_, ?_, ?_⟩
  · rintro (h | h) <;>
      simp [extractReview, pyDefault, h, show ("" : String).isEmpty = true from rfl]
  · rintro (h | h) <;>
      simp [extractReview, pyDefault, h, show ("" : String).isEmpty = true from rfl]
  · rintro (h | h) <;>
      simp [extractReview, pyDefault, h, show ("" : String).isEmpty = true from rfl]
  · intro h; simp [extractReviewRequests, h]
  · intro h; simp [extractReviewRequests, h]
  · intro h; simp [extractReviewRequests, h]
  · intro t h; simp [extractReviewRequests, h]

/-- C2 (witness): the amended theorem applied to the concrete container with
no review-text element. -/
theorem C2_witness : (extractReviewRequests c2ex).comments = "" :=
  (C2_theorem c2ex).2.2.2.2.2.1 rfl

/-! ## C4: the per-field sub-selector cascade -/

/-- A container whose first name sub-selector matches an element of
whitespace-only text while the second matches an element with real text. -/
def c4ex : Container :=
  [(⟨"span", "reviewer-name"⟩, "   "), (⟨"span", "author-name"⟩, "John")]

/-- C4 (counterexample): the cascade stops at the first matching element even
when its stripped text is empty — the code yields the empty string where the
claimed behaviour (first sub-selector with non-empty stripped text) would
yield "John". -/
theorem C4_counterexample :
    resolveField c4ex name_selectors = some "" ∧
    resolveFieldSpec c4ex name_selectors = some "John" ∧
    resolveField c4ex name_selectors ≠ resolveFieldSpec c4ex name_selectors := by
  refine ⟨by decide, by decide, by decide⟩

/-- C4 (amended): the extractor takes the first sub-selector in the ordered
list that matches an element at all, and uses that element's stripped text
even when it is empty; later sub-selectors are not consulted. -/
theorem C4_theorem (c : Container) (ss : List Selector) (i : Nat)
    (hi : i < ss.length) (t : String)
    (hfirst : ∀ j (hj : j < ss.length), j < i → findSel c (ss.get ⟨j, hj⟩) = none)
    (hmatch : findSel c (ss.get ⟨i, hi⟩) = some t) :
    resolveField c ss = some (strip t) := by
  induction ss generalizing i with
  | nil => exact absurd hi (Nat.not_lt_zero i)
  | cons s rest ih =>
    cases i with
    | zero =>
      simp only [List.get] at hmatch
      simp [resolveField, hmatch]
    | succ i' =>
      have h0 : findSel c s = none := by
        have := hfirst 0 (Nat.succ_pos rest.length) (Nat.succ_pos i')
        simpa using this
      have hi' : i' < rest.length := Nat.lt_of_succ_lt_succ hi
      have hm' : findSel c (rest.get ⟨i', hi'⟩) = some t := by
        simpa using hmatch
      have hf' : ∀ j (hj : j < rest.length), j < i' →
          findSel c (rest.get ⟨j, hj⟩) = none := by
        intro j hj hlt
        have := hfirst (j + 1) (Nat.succ_lt_succ hj) (Nat.succ_lt_succ hlt)
        simpa using this
      simpa [resolveField, h0] using ih i' hi' hf' hm'

/-- A container whose first name sub-selector matches nothing and whose
second matches an element with padded text. -/
def c4wit : Container := [(⟨"span", "author-name"⟩, " John ")]

/-- C4 (witness): the amended theorem applied to a concrete container where
the match happens at index 1 of the name cascade. -/
theorem C4_witness : resolveField c4wit name_selectors = some "John" := by
  have h := C4_theorem c4wit name_selectors 1 (by decide) " John "
    (fun j hj hlt => by
      have hj0 : j = 0 := Nat.lt_one_iff.mp hlt
      subst hj0
      exact (by decide : findSel c4wit ⟨"span", "reviewer-name"⟩ = none))
    (by decide)
  exact h.trans (by decide)

/-! ## C5: graceful halt on network failure -/

/-- A fetched document containing one review container. -/
def c5doc : List Container := [[(⟨"span", "reviewer-name"⟩, "Jan")]]

/-- C5 (counterexample): a 301 response is non-2xx, yet `raise_for_status`
does not raise for it and the scraper processes its body normally instead of
halting with the results collected so far (which would be none). -/
theorem C5_counterexample :
    fetchPage (FetchOutcome.response 301 c5doc) = Except.ok c5doc ∧
    scrape_reviews_requests (FetchOutcome.response 301 c5doc) ≠ [] := by
  refine ⟨rfl, ?_⟩
  decide

/-- C5 (amended): on a connection error, a timeout, or a 4xx/5xx response
(the statuses `raise_for_status` raises for), the requests scraper raises
internally, catches the exception, and returns the empty list — equal to the
results collected so far, since the failure precedes all collection — and
propagates no exception to the caller; 3xx responses are not treated as
failures. -/
theorem C5_theorem (f : FetchOutcome)
    (h : f = FetchOutcome.connError ∨ f = FetchOutcome.timeout ∨
        ∃ st doc, f = FetchOutcome.response st doc ∧ 400 ≤ st ∧ st < 600) :
    scrape_reviews_requests f = [] ∧ ∃ e, fetchPage f = Except.error e := by
  rcases h with rfl | rfl | ⟨st, doc, rfl, h4, h6⟩
  · exact ⟨rfl, "ConnectionError", rfl⟩
  · exact ⟨rfl, "Timeout", rfl⟩
  · have hcond : (400 ≤ st ∧ st < 600) := ⟨h4, h6⟩
    constructor
    · simp [scrape_reviews_requests, fetchPage, if_pos hcond]
    · exact ⟨"HTTPError", by simp [fetchPage, if_pos hcond]⟩

/-- C5 (witness): the amended theorem applied to a 404 response carrying a
non-empty body. -/
theorem C5_witness :
    scrape_reviews_requests (FetchOutcome.response 404 c5doc) = [] ∧
    ∃ e, fetchPage (FetchOutcome.response 404 c5doc) = Except.error e :=
  C5_theorem (FetchOutcome.response 404 c5doc)
    (Or.inr (Or.inr ⟨404, c5doc, rfl, by decide, by decide⟩))

/-! ## C6: process exit codes -/

/-- C6 (counterexample): with zero reviews scraped the script prints a
message and falls off the end of the file — the process exit code is 0, not
1. -/
theorem C6_counterexample :
    (mainRun [] []).final = [] ∧
    (mainRun [] []).exitCode = 0 ∧
    (mainRun [] []).exitCode ≠ 1 := by
  refine ⟨rfl, rfl, ?_⟩
  decide

/-- C6 (amended): the script contains no explicit exit call, so the process
exits with code 0 whether or not any review was scraped; a zero-review run
is signalled only by the absence of a saved file (and a printed message),
never through the exit code. -/
theorem C6_theorem (sel req : List Row) :
    (mainRun sel req).exitCode = 0 ∧
    (mainRun sel req).saved = !(mainRun sel req).final.isEmpty := by
  unfold mainRun
  by_cases h : (if sel.length < 5 then req else sel).isEmpty <;>
    simp [h, save_to_excel]

/-! ## C7: request timeout and status handling -/

/-- C7 (counterexample): the single GET request of the requests scraper is
issued with a 10-second timeout, not a 30-second one. -/
theorem C7_counterexample :
    (the_request "https://www.klantenvertellen.nl/reviews/1039690/merk_echt").timeout = 10 ∧
    (the_request "https://www.klantenvertellen.nl/reviews/1039690/merk_echt").timeout ≠ 30 := by
  refine ⟨rfl, ?_⟩
  decide

/-- C7 (amended): every GET request issued by the plain-HTTP scraper uses a
10-second timeout, and the fetch raises internally exactly for the statuses
`raise_for_status` rejects, namely 400-599. -/
theorem C7_theorem (url : String) :
    (the_request url).timeout = 10 ∧
    ∀ st doc, (∃ e, fetchPage (FetchOutcome.response st doc) = Except.error e) ↔
      (400 ≤ st ∧ st < 600) := by
  refine ⟨rfl, ?_⟩
  intro st doc
  constructor
  · rintro ⟨e, he⟩
    by_contra hc
    simp [fetchPage, if_neg hc] at he
  · intro hc
    exact ⟨"HTTPError", by simp [fetchPage, if_pos hc]⟩

/-! ## C8: driver released on every exit path -/

/-- C8 (confirmed): on every exit path of `scrape_reviews_selenium` on which
the browser session was acquired — the normal path and every path where an
error occurs after the driver is established — the session is explicitly
released; on the path where driver initialization itself fails, no session
was acquired. -/
theorem C8_theorem (fp : FailPoint)
    (h : Event.acquire ∈ (seleniumTrace fp).1) :
    Event.release ∈ (seleniumTrace fp).1 := by
  cases fp <;> simp_all [seleniumTrace]

/-- C8 (witness): the theorem applied to the normal exit path. -/
theorem C8_witness : Event.release ∈ (seleniumTrace FailPoint.noFail).1 :=
  C8_theorem FailPoint.noFail (by decide)

/-! ## C9: spreadsheet shape -/

/-- C9 (counterexample): exporting the empty sequence of reviews produces no
spreadsheet at all — `save_to_excel` rejects it before writing — so the
claimed shape does not hold for every N. -/
theorem C9_counterexample : save_to_excel [] = none := rfl

/-- C9 (amended): for every non-empty sequence of N Review records,
exporting produces a single sheet named "Reviews" with the fixed header
`Reviewer Name, Score, Comments` and exactly N data rows; the empty sequence
produces no file. -/
theorem C9_theorem (reviews : List Row) (h : reviews ≠ []) :
    ∃ s, save_to_excel reviews = some s ∧
      s.sheetName = "Reviews" ∧
      s.header = ["Reviewer Name", "Score", "Comments"] ∧
      s.dataRows.length = reviews.length := by
  have h' : reviews.isEmpty = false := by
    simpa [List.isEmpty_iff] using h
  refine ⟨{ sheetName := "Reviews"
          , header := ["Reviewer Name", "Score", "Comments"]
          , dataRows := reviews.map (fun r => [r.reviewerName, r.score, r.comments]) },
    ?_, rfl, rfl, by simp⟩
  simp [save_to_excel, h']

/-- A one-element review list. -/
def c9rows : List Row := [{ reviewerName := "Jan", score := "9", comments := "Top" }]

/-- C9 (witness): the amended theorem applied to a concrete one-element
list. -/
theorem C9_witness :
    ∃ s, save_to_excel c9rows = some s ∧
      s.sheetName = "Reviews" ∧
      s.header = ["Reviewer Name", "Score", "Comments"] ∧
      s.dataRows.length = c9rows.length :=
  C9_theorem c9rows (by decide)

/-! ## C10: fallback replaces, never merges -/

/-- C10 (confirmed): whenever the Selenium result has fewer than 5 reviews,
the main block discards it and the final result is exactly the requests
fallback's result — the two lists are never merged. -/
theorem C10_theorem (sel req : List Row) (h : sel.length < 5) :
    (mainRun sel req).final = req := by
  unfold mainRun
  by_cases hreq : req.isEmpty <;> simp [h, hreq]

/-- A four-element Selenium result. -/
def sel4 : List Row :=
  [{ reviewerName := "a", score := "1", comments := "w" },
   { reviewerName := "b", score := "2", comments := "x" },
   { reviewerName := "c", score := "3", comments := "y" },
   { reviewerName := "d", score := "4", comments := "z" }]

/-- C10 (witness): a 4-review Selenium result followed by a failing fallback
(empty requests result) yields an empty final result. -/
theorem C10_witness : (mainRun sel4 []).final = [] :=
  C10_theorem sel4 [] (by decide)

/-! ## C3: halting of the pagination driver -/

/-- Helper: the driver walks past any run of pages on which pagination
continues (fetch succeeded, at least 10 reviews, next-page signal present),
accumulating their reviews. -/
theorem paginateGo_skips_good (site : Nat → Option Page) :
    ∀ (k fuel page : Nat) (acc : List Row), k ≤ fuel →
      (∀ i, i < k → goodPage (site (page + i)) = true) →
      paginateGo site fuel page acc =
        paginateGo site (fuel - k) (page + k) (acc ++ seg site page k) := by
  intro k
  induction k with
  | zero =>
    intro fuel page acc _ _
    simp [seg]
  | succ k ih =>
    intro fuel page acc hk hgood
    cases fuel with
    | zero => exact absurd hk (by omega)
    | succ fuel =>
      have h0 : goodPage (site page) = true := by
        simpa using hgood 0 (Nat.succ_pos k)
      cases hsite : site page with
      | none => simp [goodPage, hsite] at h0
      | some pg =>
        rw [hsite] at h0
        have hnext : pg.hasNext = true :=
          (Bool.and_eq_true_iff.mp h0).1
        have hlen : 10 ≤ pg.revs.length :=
          of_decide_eq_true (Bool.and_eq_true_iff.mp h0).2
        have hne : pg.revs.isEmpty = false := by
          cases hrv : pg.revs with
          | nil => rw [hrv] at hlen; simp at hlen
          | cons a l => simp [hrv]
        have hcond : (!pg.hasNext || decide (pg.revs.length < 10)) = false := by
          simp [hnext, Nat.not_lt.mpr hlen]
        have hstep : paginateGo site (fuel + 1) page acc =
            paginateGo site fuel (page + 1) (acc ++ pg.revs) := by
          simp [paginateGo, hsite, hne, hcond]
        have hgood' : ∀ i, i < k → goodPage (site (page + 1 + i)) = true := by
          intro i hi
          have := hgood (i + 1) (Nat.succ_lt_succ hi)
          have harith : page + (i + 1) = page + 1 + i := by omega
          rwa [harith] at this
        have hk' : k ≤ fuel := Nat.le_of_succ_le_succ hk
        rw [hstep, ih fuel (page + 1) (acc ++ pg.revs) hk' hgood']
        have harith2 : page + 1 + k = page + (k + 1) := by omega
        have hseg : seg site page (k + 1) = pg.revs ++ seg site (page + 1) k := by
          simp [seg, hsite]
        rw [harith2, hseg, List.append_assoc]
        have harith3 : fuel + 1 - (k + 1) = fuel - k := by omega
        rw [harith3]

/-- C3 (confirmed, against the spec-modelled driver): starting at page 1,
incrementing by 1, under a maximum page budget, if pagination continued
through the first `k` pages then the driver halts at page `k+1` exactly when
the first halting condition occurs there — fetch failure or an empty page
(returning the reviews of pages 1..k), or a non-empty page with no next-page
signal or fewer than 10 reviews (returning the reviews of pages 1..k plus
that page's reviews). -/
theorem C3_theorem (site : Nat → Option Page) (maxPages k : Nat)
    (hk : k < maxPages)
    (hgood : ∀ i, i < k → goodPage (site (1 + i)) = true) :
    (site (k + 1) = none → paginate site maxPages = seg site 1 k) ∧
    (∀ pg, site (k + 1) = some pg → pg.revs = [] →
        paginate site maxPages = seg site 1 k) ∧
    (∀ pg, site (k + 1) = some pg → pg.revs ≠ [] →
        (pg.hasNext = false ∨ pg.revs.length < 10) →
        paginate site maxPages = seg site 1 k ++ pg.revs) := by
  have hstep := paginateGo_skips_good site k maxPages 1 [] (le_of_lt hk) hgood
  rw [List.nil_append] at hstep
  have harith : 1 + k = k + 1 := by omega
  rw [harith] at hstep
  obtain ⟨m, hm⟩ : ∃ m, maxPages - k = m + 1 := ⟨maxPages - k - 1, by omega⟩
  rw [hm] at hstep
  unfold paginate
  refine ⟨?_, ?_, ?_⟩
  · intro hnone
    rw [hstep]
    simp [paginateGo, hnone]
  · intro pg hsome hempty
    rw [hstep]
    simp [paginateGo, hsome, hempty]
  · intro pg hsome hne hhalt
    have hne' : pg.revs.isEmpty = false := by
      cases hrv : pg.revs with
      | nil => exact absurd hrv hne
      | cons a l => simp [hrv]
    have hcond : (!pg.hasNext || decide (pg.revs.length < 10)) = true := by
      rcases hhalt with h | h
      · simp [h]
      · simp [h]
    rw [hstep]
    simp [paginateGo, hsome, hne', hcond]

/-- A fixed sample review row. -/
def exRow : Row := { reviewerName := "Jan", score := "9", comments := "Goed" }

/-- The two-page source of the spec's end-to-end example: page 1 yields 12
reviews and has a next-page signal, page 2 yields 3 reviews and has none. -/
def exSite : Nat → Option Page
  | 1 => some { revs := List.replicate 12 exRow, hasNext := true }
  | 2 => some { revs := List.replicate 3 exRow, hasNext := false }
  | _ => none

/-- C3 (witness): on the spec's two-page example with a budget of 10 pages,
the driver halts after page 2 (3 reviews, below the threshold of 10) and
returns the 12 + 3 = 15 accumulated reviews. -/
theorem C3_witness :
    paginate exSite 10 = seg exSite 1 1 ++ List.replicate 3 exRow ∧
    (seg exSite 1 1 ++ List.replicate 3 exRow).length = 15 := by
  constructor
  · exact (C3_theorem exSite 10 1 (by decide)
      (fun i hi => by
        have hi0 : i = 0 := Nat.lt_one_iff.mp hi
        subst hi0
        decide)).2.2
      { revs := List.replicate 3 exRow, hasNext := false } rfl (by decide)
      (Or.inl rfl)
  · decide

end Scraper
